import Mathlib

/-!
A verification development for the LLMConnectors library: a shallow
embedding, in Lean, of the retry/backoff request core shared by the three
provider clients (`OpenAIClient._request`, `AnthropicClient._request`,
`PerplexityClient._request`), of the per-provider `chat_completion` /
`embeddings` payload construction and response unwrapping, and of the
settings credential validation (`validate_api_key` in the three Config
modules).

Modelling conventions:
- Python floats are modelled as rationals (ℚ); all values arising here are
  exactly representable, and the arithmetic performed (multiplication by a
  power of two, truncation by `int(...)`) is exact on floats in the ranges
  involved.
- Python `int` is modelled as ℤ (`max_retries` can be negative: nothing in
  the settings constrains it).
- One HTTP attempt is modelled by consulting an oracle
  `transport : Nat → HttpOutcome` at the attempt index: the response either
  passes `raise_for_status` (status < 400, parsed body returned), raises
  `httpx.HTTPStatusError` with a status code, or raises a network-level
  error (`httpx.RequestError` / `httpx.TimeoutException`).
- Exceptions raised by the Python code are modelled as explicit result
  constructors; a Python function falling off the end of its body (the
  retry loop never iterating) is modelled by a dedicated `noneReturn`
  result, mirroring Python's implicit `return None`.
-/

/-- Parsed JSON values, as returned by `resp.json()`. Objects are ordered
field lists; Python dict lookup on the bodies considered here (no duplicate
keys) is first-match lookup. -/
inductive Json where
  | null
  | str (s : String)
  | num (n : Int)
  | arr (elems : List Json)
  | obj (fields : List (String × Json))

/-- Outcome of one HTTP round trip, as observed by the `try` block of the
retry loop in `_request`. -/
inductive HttpOutcome where
  | success (body : Json)
  | httpStatus (status : Nat)
  | network

/-- The classified exception that `_request` re-raises to its caller. -/
inductive Failure where
  | httpStatus (status : Nat)
  | network
  deriving DecidableEq

/-- What a call to `_request` produces: a parsed body (`return resp.json()`),
a re-raised classified exception, the `RuntimeError` that httpx raises from
`self._client.request(...)` when the client has been closed (raised before
any network I/O and caught by none of the `except` clauses, so it escapes
from the first loop iteration), or Python's implicit `None` when the loop
body never ran (possible only for `max_retries < 0` — in which case a
closed client raises nothing either, because the request call is never
reached). -/
inductive RequestResult where
  | ok (body : Json)
  | raised (f : Failure)
  | closedRaise
  | noneReturn

/-- The retry condition on an HTTP status code, from `_request`:
`status == 429 or 500 <= status < 600`. Identical in all three clients. -/
def retriableStatus (status : Nat) : Bool :=
  status == 429 || (500 ≤ status && status < 600)

/-- Full observable behaviour of one `_request` call: how many times the
HTTP transport was invoked, the sequence of `asyncio.sleep` durations
(seconds, in order), and the final result. -/
structure RequestTrace where
  attempts : Nat
  sleeps : List ℚ
  result : RequestResult

/-- One iteration step of the `for attempt in range(max_retries + 1)` loop
of `_request`, recursing on the remaining iteration count `fuel`.
`attempt` is the Python loop variable; `attempts` and `sleeps` accumulate
the trace. Mirrors the loop body: the iteration starts with
`self._client.request(...)`, which on a closed client raises httpx's
`RuntimeError` before any I/O (uncaught by the `except` clauses, so it
escapes immediately and the transport is never consulted); on an open
client, success returns the body; a retriable `HTTPStatusError` with
`attempt < max_retries` sleeps `backoff_factor * 2 ** attempt` and
continues, otherwise re-raises; a network error with
`attempt < max_retries` sleeps the same amount and continues, otherwise
re-raises. -/
def requestAux (transport : Nat → HttpOutcome) (closed : Bool) (maxRetries : Int)
    (backoff : ℚ) : Nat → Nat → Nat → List ℚ → RequestTrace
  | _, 0, attempts, sleeps => ⟨attempts, sleeps, .noneReturn⟩
  | attempt, fuel + 1, attempts, sleeps =>
    match closed, transport attempt with
    | true, _ => ⟨attempts, sleeps, .closedRaise⟩
    | false, .success body => ⟨attempts + 1, sleeps, .ok body⟩
    | false, .httpStatus status =>
      if (attempt : Int) < maxRetries ∧ retriableStatus status = true then
        requestAux transport closed maxRetries backoff (attempt + 1) fuel
          (attempts + 1) (sleeps ++ [backoff * 2 ^ attempt])
      else ⟨attempts + 1, sleeps, .raised (.httpStatus status)⟩
    | false, .network =>
      if (attempt : Int) < maxRetries then
        requestAux transport closed maxRetries backoff (attempt + 1) fuel
          (attempts + 1) (sleeps ++ [backoff * 2 ^ attempt])
      else ⟨attempts + 1, sleeps, .raised .network⟩

/-- `_request(method, path, json)` on a client whose transport is open or
closed as given: run the retry loop from `attempt = 0`.
`range(max_retries + 1)` iterates `max(max_retries + 1, 0)` times, which is
`(maxRetries + 1).toNat`. -/
def runRequestOn (closed : Bool) (transport : Nat → HttpOutcome) (maxRetries : Int)
    (backoff : ℚ) : RequestTrace :=
  requestAux transport closed maxRetries backoff 0 (maxRetries + 1).toNat 0 []

/-- `_request(method, path, json)` on a live (open) client. -/
def runRequest (transport : Nat → HttpOutcome) (maxRetries : Int) (backoff : ℚ) :
    RequestTrace :=
  runRequestOn false transport maxRetries backoff

/-- An HTTP outcome that the retry loop classifies as retriable: a 429 or
5xx status, or a network/timeout error. -/
def retriableOutcome : HttpOutcome → Prop
  | .success _ => False
  | .httpStatus status => retriableStatus status = true
  | .network => True

/-- The exception corresponding to a failed HTTP outcome. -/
def outcomeFailure : HttpOutcome → Option Failure
  | .success _ => none
  | .httpStatus status => some (.httpStatus status)
  | .network => some .network

/-- A conversation message: `{"role": ..., "content": ...}`. -/
structure Message where
  role : String
  content : String
  deriving DecidableEq

/-- `result['choices'][0]['message']['content']` subscript chain, each step
returning `none` where Python would raise `KeyError` / `IndexError` /
`TypeError`. -/
def Json.getKey : Json → String → Option Json
  | .obj fields, k => fields.lookup k
  | _, _ => none

/-- List indexing step of a subscript chain (`[0]`). -/
def Json.getIdx : Json → Nat → Option Json
  | .arr elems, i => elems.get? i
  | _, _ => none

/-- The unwrap path used by `chat_completion` when `return_only_answer` is
set: `result['choices'][0]['message']['content']`. -/
def unwrapAnswer (body : Json) : Option Json :=
  (((body.getKey "choices").bind (fun c => c.getIdx 0)).bind
    (fun m => m.getKey "message")).bind (fun m => m.getKey "content")

/-- The unwrap path used by `embeddings` when `return_only_embeddings` is
set: `result['data'][0]['embedding']`. -/
def unwrapEmbedding (body : Json) : Option Json :=
  ((body.getKey "data").bind (fun d => d.getIdx 0)).bind
    (fun e => e.getKey "embedding")

/-- Mutable state of an `OpenAIClient` / `PerplexityClient` instance:
its `self.messages` history, the retry parameters copied out of settings at
construction, and whether the underlying `httpx.AsyncClient` has been
closed. -/
structure ClientState where
  messages : List Message
  maxRetries : Int
  backoff : ℚ
  closed : Bool

/-- The hard-coded system prompt installed as the first history entry by
`OpenAIClient.__init__` and `PerplexityClient.__init__` (and returned by
`AnthropicClient._get_claude_system_prompt`). -/
def mentorPromptText : String :=
  "You are an expert, wise, and playful AI mentor. " ++
  "You explain technical and scientific ideas clearly, with curiosity and intelligence. " ++
  "You never produce hallucinations; if unsure, you say you don’t know. " ++
  "You encourage critical thinking, prompt questions, and rigor."

/-- `OpenAIClient.__init__` (also `PerplexityClient.__init__`): history
starts with the system message; `max_retries` and `backoff_factor` are read
from settings; the transport starts open. -/
def initialOpenAIState (maxRetries : Int) (backoff : ℚ) : ClientState :=
  ⟨[⟨"system", mentorPromptText⟩], maxRetries, backoff, false⟩

/-- The `{model, messages, temperature}` payload built by
`OpenAIClient.chat_completion` (extra `kwargs` out of scope). -/
structure ChatPayload where
  model : String
  messages : List Message
  temperature : ℚ

/-- The `{model, messages}` payload built by
`PerplexityClient.chat_completion`. -/
structure PerplexityPayload where
  model : String
  messages : List Message

/-- The `{model, input}` payload built by `OpenAIClient.embeddings`. -/
structure EmbeddingsPayload where
  model : String
  input : String

/-- What a `chat_completion` / `embeddings` call delivers to its caller:
the unwrapped value, the full envelope (`none` models Python's `None` when
the retry loop never ran), a subscript failure while unwrapping a
successful response (Python `KeyError`/`IndexError`/`TypeError`; the
spec's `ResponseShapeError`), a re-raised transport exception, or httpx's
refusal to send on a closed client (the spec's `ClosedClientError`). -/
inductive ChatOutcome where
  | answer (v : Json)
  | envelope (v : Option Json)
  | shapeError
  | transportRaise (f : Failure)
  | closedError

/-- Post-request result handling of `OpenAIClient.chat_completion`: with
the unwrap flag set, subscript into the body (failure raises; `None` from
an empty retry loop is likewise unsubscriptable), else pass the result
through unchanged. An exception escaping `_request` — a classified
transport failure or the closed-client `RuntimeError` (the spec's
`ClosedClientError`) — propagates to the caller. -/
def chatOutcomeOf (r : RequestResult) (return_only_answer : Bool) : ChatOutcome :=
  match r with
  | .ok body =>
    if return_only_answer then
      match unwrapAnswer body with
      | some v => .answer v
      | none => .shapeError
    else .envelope (some body)
  | .raised f => .transportRaise f
  | .closedRaise => .closedError
  | .noneReturn => if return_only_answer then .shapeError else .envelope none

/-- Post-request result handling of `OpenAIClient.embeddings`. -/
def embOutcomeOf (r : RequestResult) (return_only_embeddings : Bool) : ChatOutcome :=
  match r with
  | .ok body =>
    if return_only_embeddings then
      match unwrapEmbedding body with
      | some v => .answer v
      | none => .shapeError
    else .envelope (some body)
  | .raised f => .transportRaise f
  | .closedRaise => .closedError
  | .noneReturn => if return_only_embeddings then .shapeError else .envelope none

/-- Observable effect of one `chat_completion` call: the client state after
the call, the payload sent, the transport attempt count, the backoff sleeps,
and the outcome. -/
structure ChatCall where
  state : ClientState
  payload : ChatPayload
  attempts : Nat
  sleeps : List ℚ
  outcome : ChatOutcome

/-- `OpenAIClient.chat_completion`: append the user turn to `self.messages`
(this happens before any I/O and is never rolled back), build the payload
from the updated history, then run `_request` — whose first loop iteration
is where a closed client raises (before any network I/O), and whose loop
never runs at all when `max_retries < 0`, closed or not. The appended turn
remains in the history in every case. -/
def chat_completion (st : ClientState) (query mdl : String) (temperature : ℚ)
    (return_only_answer : Bool) (transport : Nat → HttpOutcome) : ChatCall :=
  { state := { st with messages := st.messages ++ [⟨"user", query⟩] },
    payload := ⟨mdl, st.messages ++ [⟨"user", query⟩], temperature⟩,
    attempts := (runRequestOn st.closed transport st.maxRetries st.backoff).attempts,
    sleeps := (runRequestOn st.closed transport st.maxRetries st.backoff).sleeps,
    outcome := chatOutcomeOf
      (runRequestOn st.closed transport st.maxRetries st.backoff).result
      return_only_answer }

/-- Observable effect of one `PerplexityClient.chat_completion` call. -/
structure PerplexityCall where
  state : ClientState
  payload : PerplexityPayload
  attempts : Nat
  sleeps : List ℚ
  outcome : ChatOutcome

/-- `PerplexityClient.chat_completion`: same history append and request
flow as the OpenAI client, payload `{model, messages}`, envelope returned
as-is (no unwrap flag). -/
def perplexity_chat_completion (st : ClientState) (query mdl : String)
    (transport : Nat → HttpOutcome) : PerplexityCall :=
  { state := { st with messages := st.messages ++ [⟨"user", query⟩] },
    payload := ⟨mdl, st.messages ++ [⟨"user", query⟩]⟩,
    attempts := (runRequestOn st.closed transport st.maxRetries st.backoff).attempts,
    sleeps := (runRequestOn st.closed transport st.maxRetries st.backoff).sleeps,
    outcome := chatOutcomeOf
      (runRequestOn st.closed transport st.maxRetries st.backoff).result false }

/-- Observable effect of one `OpenAIClient.embeddings` call. `embeddings`
does not touch `self.messages`. -/
structure EmbeddingsCall where
  state : ClientState
  payload : EmbeddingsPayload
  attempts : Nat
  sleeps : List ℚ
  outcome : ChatOutcome

/-- `OpenAIClient.embeddings`: payload `{model, input}`, optional unwrap of
`data[0].embedding`. -/
def embeddings (st : ClientState) (input mdl : String) (return_only_embeddings : Bool)
    (transport : Nat → HttpOutcome) : EmbeddingsCall :=
  { state := st, payload := ⟨mdl, input⟩,
    attempts := (runRequestOn st.closed transport st.maxRetries st.backoff).attempts,
    sleeps := (runRequestOn st.closed transport st.maxRetries st.backoff).sleeps,
    outcome := embOutcomeOf
      (runRequestOn st.closed transport st.maxRetries st.backoff).result
      return_only_embeddings }

/-- `OpenAIClient.close` / `PerplexityClient.close`: `await
self._client.aclose()`. httpx's `aclose` is idempotent (it is a no-op on an
already-closed client), so the Boolean "an exception escaped" component is
always `false`; afterwards the client is closed. -/
def close (st : ClientState) : ClientState × Bool :=
  ({ st with closed := true }, false)

/-- Mutable state of an `AnthropicClient` instance: its resolved
`self.system_prompt`, its `self.messages` history (which starts EMPTY — the
system prompt is not a history entry), retry parameters, and the transport
open/closed flag. -/
structure AnthropicState where
  system_prompt : String
  messages : List Message
  maxRetries : Int
  backoff : ℚ
  closed : Bool

/-- `AnthropicClient.__init__`: `self.system_prompt = system_prompt or
self._get_claude_system_prompt()` (Python `or`: the empty string is falsy),
`self.messages = list()`. -/
def anthropicInit (system_prompt : String) (maxRetries : Int) (backoff : ℚ) :
    AnthropicState :=
  ⟨if system_prompt = "" then mentorPromptText else system_prompt,
   [], maxRetries, backoff, false⟩

/-- The payload built by `AnthropicClient.chat_completion`: the system
prompt travels in the top-level `system` field, the history in `messages`;
`max_tokens` / `temperature` / `stop_sequences` are included only when not
`None` (extra `kwargs` out of scope). -/
structure AnthropicPayload where
  model : String
  system : String
  messages : List Message
  max_tokens : Option Int
  temperature : Option ℚ
  stop_sequences : Option (List String)

/-- Observable effect of one `AnthropicClient.chat_completion` call. -/
structure AnthropicCall where
  state : AnthropicState
  payload : AnthropicPayload
  attempts : Nat
  sleeps : List ℚ
  outcome : ChatOutcome

/-- `AnthropicClient.chat_completion`: append `{"role": "user", "content":
str(query)}` to `self.messages` (before any I/O, never rolled back), build
the payload with the system prompt as a top-level field, run `_request`,
and return the envelope unmodified (no unwrap flag). -/
def anthropic_chat_completion (st : AnthropicState) (query mdl : String)
    (max_tokens : Option Int) (temperature : Option ℚ)
    (stop_sequences : Option (List String)) (transport : Nat → HttpOutcome) :
    AnthropicCall :=
  { state := { st with messages := st.messages ++ [⟨"user", query⟩] },
    payload := ⟨mdl, st.system_prompt, st.messages ++ [⟨"user", query⟩],
      max_tokens, temperature, stop_sequences⟩,
    attempts := (runRequestOn st.closed transport st.maxRetries st.backoff).attempts,
    sleeps := (runRequestOn st.closed transport st.maxRetries st.backoff).sleeps,
    outcome := chatOutcomeOf
      (runRequestOn st.closed transport st.maxRetries st.backoff).result false }

/-- `AnthropicClient.close`: like `close`, delegates to the idempotent
`httpx` `aclose`; never raises. -/
def anthropicClose (st : AnthropicState) : AnthropicState × Bool :=
  ({ st with closed := true }, false)

/-- The client state reached from `st` by a sequence of
`AnthropicClient.chat_completion` calls, one per query. -/
def anthropicRun (st : AnthropicState) (queries : List String) (mdl : String)
    (max_tokens : Option Int) (temperature : Option ℚ)
    (stop_sequences : Option (List String)) (transport : Nat → HttpOutcome) :
    AnthropicState :=
  queries.foldl
    (fun s q =>
      (anthropic_chat_completion s q mdl max_tokens temperature stop_sequences
        transport).state)
    st

/-- Python `int(x)` on a float/rational: truncation toward zero. Used by
`AnthropicClient.__init__` and `PerplexityClient.__init__` on
`settings.backoff_factor`. -/
def pyInt (q : ℚ) : Int :=
  q.num.tdiv (q.den : Int)

/-- `OpenAIClient.__init__`: `self.backoff_factor =
float(self.settings.backoff_factor)` — the identity on the settings value. -/
def openAIClientBackoff (backoff_factor : ℚ) : ℚ :=
  backoff_factor

/-- `AnthropicClient.__init__`: `self.backoff_factor =
int(self.settings.backoff_factor)` — truncation toward zero. -/
def anthropicClientBackoff (backoff_factor : ℚ) : ℚ :=
  (pyInt backoff_factor : ℚ)

/-- `PerplexityClient.__init__`: `self.backoff_factor =
int(self.settings.backoff_factor)` — truncation toward zero. -/
def perplexityClientBackoff (backoff_factor : ℚ) : ℚ :=
  (pyInt backoff_factor : ℚ)

/-- Configuration errors raised by settings construction. -/
inductive ConfigError where
  | missingCredential
  deriving DecidableEq

/-- The `validate_api_key` model validator shared (verbatim up to the
environment variable name) by `OpenAISettings`, `AnthropicSettings` and
`PerplexitySettings`: if the explicit `api_key` field is empty, fall back
to the environment variable; if still empty, raise. Construction is pure —
no network I/O is involved. -/
def validate_api_key (api_key envApiKey : String) : Except ConfigError String :=
  if (if api_key = "" then envApiKey else api_key) = "" then
    .error .missingCredential
  else
    .ok (if api_key = "" then envApiKey else api_key)

/-- An `OpenAISettings` value after validation. Note there is no
constraint on `max_retries` (in particular it may be negative). -/
structure OpenAISettings where
  api_key : String
  base_url : String
  timeout : ℚ
  max_retries : Int
  backoff_factor : ℚ
  deriving DecidableEq

/-- `OpenAISettings(...)` construction: field values, then the
`validate_api_key` model validator. `envApiKey` is the value of
`OPENAI_API_KEY` (empty when unset). -/
def mkOpenAISettings (api_key envApiKey base_url : String) (timeout : ℚ)
    (max_retries : Int) (backoff_factor : ℚ) : Except ConfigError OpenAISettings :=
  match validate_api_key api_key envApiKey with
  | .error e => .error e
  | .ok key => .ok ⟨key, base_url, timeout, max_retries, backoff_factor⟩

/-- An `AnthropicSettings` value after validation. -/
structure AnthropicSettings where
  api_key : String
  base_url : String
  version : String
  timeout : ℚ
  max_retries : Int
  backoff_factor : ℚ
  deriving DecidableEq

/-- `AnthropicSettings(...)` construction; `envApiKey` is the value of
`ANTHROPIC_API_KEY` (empty when unset). -/
def mkAnthropicSettings (api_key envApiKey base_url version : String) (timeout : ℚ)
    (max_retries : Int) (backoff_factor : ℚ) : Except ConfigError AnthropicSettings :=
  match validate_api_key api_key envApiKey with
  | .error e => .error e
  | .ok key => .ok ⟨key, base_url, version, timeout, max_retries, backoff_factor⟩


/-- The response body `{"choices":[{"message":{"content":"hi"}}]}`. -/
def hiBody : Json :=
  .obj [("choices", .arr [.obj [("message", .obj [("content", .str "hi")])]])]

/-- `range(max_retries + 1)` has `max_retries + 1` elements when
`max_retries` is a non-negative Python int. -/
theorem runRequest_natRetries (transport : Nat → HttpOutcome) (n : Nat) (b : ℚ) :
    runRequest transport (n : Int) b
      = requestAux transport false (n : Int) b 0 (n + 1) 0 [] :=
  rfl

/-- Loop-step equation: a successful attempt returns its parsed body. -/
theorem requestAux_success (transport : Nat → HttpOutcome) (mr : Int) (b : ℚ)
    (attempt fuel attempts : Nat) (sleeps : List ℚ) (body : Json)
    (htr : transport attempt = .success body) :
    requestAux transport false mr b attempt (fuel + 1) attempts sleeps
      = ⟨attempts + 1, sleeps, .ok body⟩ := by
  simp only [requestAux, htr]

/-- Loop-step equation: a retriable HTTP status with retry budget left
sleeps `b * 2 ^ attempt` and continues. -/
theorem requestAux_httpRetry (transport : Nat → HttpOutcome) (mr : Int) (b : ℚ)
    (attempt fuel attempts : Nat) (sleeps : List ℚ) (status : Nat)
    (htr : transport attempt = .httpStatus status)
    (hc : (attempt : Int) < mr ∧ retriableStatus status = true) :
    requestAux transport false mr b attempt (fuel + 1) attempts sleeps
      = requestAux transport false mr b (attempt + 1) fuel (attempts + 1)
          (sleeps ++ [b * 2 ^ attempt]) := by
  simp only [requestAux, htr]
  rw [if_pos hc]

/-- Loop-step equation: an HTTP status that is terminal or arrives with no
retry budget left is re-raised. -/
theorem requestAux_httpStop (transport : Nat → HttpOutcome) (mr : Int) (b : ℚ)
    (attempt fuel attempts : Nat) (sleeps : List ℚ) (status : Nat)
    (htr : transport attempt = .httpStatus status)
    (hc : ¬ ((attempt : Int) < mr ∧ retriableStatus status = true)) :
    requestAux transport false mr b attempt (fuel + 1) attempts sleeps
      = ⟨attempts + 1, sleeps, .raised (.httpStatus status)⟩ := by
  simp only [requestAux, htr]
  rw [if_neg hc]

/-- Loop-step equation: a network error with retry budget left sleeps and
continues. -/
theorem requestAux_netRetry (transport : Nat → HttpOutcome) (mr : Int) (b : ℚ)
    (attempt fuel attempts : Nat) (sleeps : List ℚ)
    (htr : transport attempt = .network) (hc : (attempt : Int) < mr) :
    requestAux transport false mr b attempt (fuel + 1) attempts sleeps
      = requestAux transport false mr b (attempt + 1) fuel (attempts + 1)
          (sleeps ++ [b * 2 ^ attempt]) := by
  simp only [requestAux, htr]
  rw [if_pos hc]

/-- Loop-step equation: a network error on the final attempt is re-raised. -/
theorem requestAux_netStop (transport : Nat → HttpOutcome) (mr : Int) (b : ℚ)
    (attempt fuel attempts : Nat) (sleeps : List ℚ)
    (htr : transport attempt = .network) (hc : ¬ ((attempt : Int) < mr)) :
    requestAux transport false mr b attempt (fuel + 1) attempts sleeps
      = ⟨attempts + 1, sleeps, .raised .network⟩ := by
  simp only [requestAux, htr]
  rw [if_neg hc]

/-- Behaviour of the retry loop from an arbitrary iteration when every
attempt fails retriably: it runs out its remaining `fuel` iterations,
sleeping `backoff * 2 ^ a` after each non-final attempt `a`, and re-raises
the exception classified from the outcome of the final attempt (index
`n = max_retries`). -/
theorem requestAux_allRetriable (transport : Nat → HttpOutcome) (n : Nat) (b : ℚ)
    (h : ∀ a, retriableOutcome (transport a)) :
    ∀ fuel attempt attempts : Nat, ∀ sleeps : List ℚ,
      attempt + fuel = n + 1 → 0 < fuel →
      (requestAux transport false (n : Int) b attempt fuel attempts sleeps).attempts
          = attempts + fuel ∧
      (requestAux transport false (n : Int) b attempt fuel attempts sleeps).sleeps
          = sleeps ++ (List.range' attempt (fuel - 1)).map (fun a => b * 2 ^ a) ∧
      ∃ f, outcomeFailure (transport n) = some f ∧
        (requestAux transport false (n : Int) b attempt fuel attempts sleeps).result
          = .raised f := by
  intro fuel
  induction fuel with
  | zero =>
    intro attempt attempts sleeps _ hpos
    exact absurd hpos (by omega)
  | succ f ih =>
    intro attempt attempts sleeps hsum _
    cases htr : transport attempt with
    | success body =>
      have hr := h attempt
      rw [htr] at hr
      exact hr.elim
    | httpStatus status =>
      have hr := h attempt
      rw [htr] at hr
      cases f with
      | zero =>
        have ha : attempt = n := by omega
        rw [requestAux_httpStop transport (n : Int) b attempt 0 attempts sleeps status htr
          (by simp [ha])]
        subst ha
        exact ⟨rfl, by simp, ⟨.httpStatus status, by rw [htr]; rfl, rfl⟩⟩
      | succ f' =>
        have hlt : (attempt : Int) < (n : Int) := by omega
        rw [requestAux_httpRetry transport (n : Int) b attempt (f' + 1) attempts sleeps
          status htr ⟨hlt, hr⟩]
        obtain ⟨h1, h2, h3⟩ :=
          ih (attempt + 1) (attempts + 1) (sleeps ++ [b * 2 ^ attempt])
            (by omega) (by omega)
        refine ⟨by rw [h1]; omega, ?_, h3⟩
        rw [h2]
        simp only [Nat.add_sub_cancel]
        rw [List.range'_succ attempt f' 1, List.map_cons, ← List.append_cons]
    | network =>
      cases f with
      | zero =>
        have ha : attempt = n := by omega
        rw [requestAux_netStop transport (n : Int) b attempt 0 attempts sleeps htr
          (by omega)]
        subst ha
        exact ⟨rfl, by simp, ⟨.network, by rw [htr]; rfl, rfl⟩⟩
      | succ f' =>
        have hlt : (attempt : Int) < (n : Int) := by omega
        rw [requestAux_netRetry transport (n : Int) b attempt (f' + 1) attempts sleeps
          htr hlt]
        obtain ⟨h1, h2, h3⟩ :=
          ih (attempt + 1) (attempts + 1) (sleeps ++ [b * 2 ^ attempt])
            (by omega) (by omega)
        refine ⟨by rw [h1]; omega, ?_, h3⟩
        rw [h2]
        simp only [Nat.add_sub_cancel]
        rw [List.range'_succ attempt f' 1, List.map_cons, ← List.append_cons]

/-- A `_request` call against a transport that fails retriably on every
attempt: `max_retries + 1` attempts, backoff sleeps `b * 2 ^ a` for
`a = 0 .. max_retries - 1`, and the final attempt's exception re-raised. -/
theorem runRequest_allRetriable (transport : Nat → HttpOutcome) (n : Nat) (b : ℚ)
    (h : ∀ a, retriableOutcome (transport a)) :
    (runRequest transport (n : Int) b).attempts = n + 1 ∧
    (runRequest transport (n : Int) b).sleeps
        = (List.range n).map (fun a => b * 2 ^ a) ∧
    ∃ f, outcomeFailure (transport n) = some f ∧
      (runRequest transport (n : Int) b).result = .raised f := by
  rw [runRequest_natRetries]
  obtain ⟨h1, h2, h3⟩ :=
    requestAux_allRetriable transport n b h (n + 1) 0 0 [] (by omega) (by omega)
  refine ⟨by rw [h1]; omega, ?_, h3⟩
  rw [h2]
  simp [List.range_eq_range' n]

/-- A successful first attempt returns immediately: one transport
invocation, no backoff sleep. -/
theorem runRequest_firstSuccess (transport : Nat → HttpOutcome) (n : Nat) (b : ℚ)
    (body : Json) (h0 : transport 0 = .success body) :
    runRequest transport (n : Int) b = ⟨1, [], .ok body⟩ := by
  rw [runRequest_natRetries]
  exact requestAux_success transport (n : Int) b 0 n 0 [] body h0

/-- A non-retriable HTTP status on the first attempt is re-raised
immediately: one transport invocation, no backoff sleep. -/
theorem runRequest_firstTerminal (transport : Nat → HttpOutcome) (n : Nat) (b : ℚ)
    (s : Nat) (h0 : transport 0 = .httpStatus s) (hterm : retriableStatus s = false) :
    runRequest transport (n : Int) b = ⟨1, [], .raised (.httpStatus s)⟩ := by
  rw [runRequest_natRetries]
  exact requestAux_httpStop transport (n : Int) b 0 n 0 [] s h0 (by simp [hterm])

/-- With a negative `max_retries`, `range(max_retries + 1)` is empty: the
loop body never runs, no transport invocation happens, and `_request`
falls through, returning Python's `None`. -/
theorem runRequest_negRetries (transport : Nat → HttpOutcome) (m : Int) (hm : m < 0)
    (b : ℚ) : runRequest transport m b = ⟨0, [], .noneReturn⟩ := by
  unfold runRequest runRequestOn
  rw [show (m + 1).toNat = 0 by omega]
  rfl

/-- C1: for every non-negative `maxRetries = n` (including `n = 0`) and
every backoff factor, a transport failing retriably (429, 5xx, or a
network/timeout error) on every attempt makes `_request` perform exactly
`n + 1` attempts and then re-raise the last attempt's failure; no partial
or degraded result is returned. -/
theorem request_exhausts_retries (n : Nat) (b : ℚ) (transport : Nat → HttpOutcome)
    (h : ∀ a, retriableOutcome (transport a)) :
    (runRequest transport (n : Int) b).attempts = n + 1 ∧
    ∃ f, outcomeFailure (transport n) = some f ∧
      (runRequest transport (n : Int) b).result = .raised f := by
  obtain ⟨h1, _, h3⟩ := runRequest_allRetriable transport n b h
  exact ⟨h1, h3⟩

/-- Witness for C1 at `maxRetries = 2` and a permanently failing network
transport: exactly 3 attempts, then the network failure is re-raised. -/
theorem request_exhausts_retries_witness :
    (runRequest (fun _ => HttpOutcome.network) ((2 : Nat) : Int) 1).attempts = 2 + 1 ∧
    ∃ f, outcomeFailure HttpOutcome.network = some f ∧
      (runRequest (fun _ => HttpOutcome.network) ((2 : Nat) : Int) 1).result
        = .raised f :=
  request_exhausts_retries 2 1 (fun _ => HttpOutcome.network) (fun _ => trivial)

/-- C2 (amended): under a permanently retriable failure with non-negative
`maxRetries = n`, the delay slept after failed attempt `a` is exactly
`c * 2 ^ a` with no jitter, where `c` is the backoff factor the client
STORES at construction: the OpenAI client stores the settings value
unchanged (`float(...)`), while the Anthropic and Perplexity clients store
`int(settings.backoff_factor)` — the settings value truncated toward zero —
so for non-integral settings values their delay differs from
`settings.backoff_factor * 2 ^ a`. -/
theorem backoff_delay_schedule (n : Nat) (sbf : ℚ) (transport : Nat → HttpOutcome)
    (h : ∀ a, retriableOutcome (transport a)) :
    (runRequest transport (n : Int) (openAIClientBackoff sbf)).sleeps
        = (List.range n).map (fun a => sbf * 2 ^ a) ∧
    (runRequest transport (n : Int) (anthropicClientBackoff sbf)).sleeps
        = (List.range n).map (fun a => (pyInt sbf : ℚ) * 2 ^ a) ∧
    (runRequest transport (n : Int) (perplexityClientBackoff sbf)).sleeps
        = (List.range n).map (fun a => (pyInt sbf : ℚ) * 2 ^ a) :=
  ⟨(runRequest_allRetriable transport n (openAIClientBackoff sbf) h).2.1,
   (runRequest_allRetriable transport n (anthropicClientBackoff sbf) h).2.1,
   (runRequest_allRetriable transport n (perplexityClientBackoff sbf) h).2.1⟩

/-- Witness for the amended C2 at `maxRetries = 2`, settings backoff
factor 1, permanently failing network transport. -/
theorem backoff_delay_schedule_witness :
    (runRequest (fun _ => HttpOutcome.network) ((2 : Nat) : Int)
        (openAIClientBackoff 1)).sleeps
      = (List.range 2).map (fun a => (1 : ℚ) * 2 ^ a) ∧
    (runRequest (fun _ => HttpOutcome.network) ((2 : Nat) : Int)
        (anthropicClientBackoff 1)).sleeps
      = (List.range 2).map (fun a => (pyInt 1 : ℚ) * 2 ^ a) ∧
    (runRequest (fun _ => HttpOutcome.network) ((2 : Nat) : Int)
        (perplexityClientBackoff 1)).sleeps
      = (List.range 2).map (fun a => (pyInt 1 : ℚ) * 2 ^ a) :=
  backoff_delay_schedule 2 1 (fun _ => HttpOutcome.network) (fun _ => trivial)

/-- Counterexample to C2 as stated: with `settings.backoff_factor = 5/2`
(an exactly representable float) and `maxRetries = 1`, the Anthropic-style
client sleeps 2 seconds before the retry — `int(5/2) * 2 ^ 0` — not the
`5/2 * 2 ^ 0 = 5/2` the claim computes from the value carried in the
settings. -/
theorem backoff_settings_factor_cex :
    (runRequest (fun _ => HttpOutcome.network) ((1 : Nat) : Int)
        (anthropicClientBackoff (Rat.divInt 5 2))).sleeps = [(2 : ℚ)] ∧
    Rat.divInt 5 2 = (5 : ℚ) / 2 ∧
    ¬ ((2 : ℚ) = (5 : ℚ) / 2 * 2 ^ (0 : Nat)) := by
  refine ⟨?_, ?_, ?_⟩
  · rw [(runRequest_allRetriable (fun _ => HttpOutcome.network) 1
      (anthropicClientBackoff (Rat.divInt 5 2)) (fun _ => trivial)).2.1]
    simp only [anthropicClientBackoff, show pyInt (Rat.divInt 5 2) = 2 from by decide]
    norm_num [List.range_succ]
  · rw [Rat.divInt_eq_div]
    norm_num
  · norm_num

/-- C3: a terminal HTTP status (≥ 400, not 429, not 5xx) on the first
attempt: exactly one attempt, no backoff sleep, failure re-raised at once,
for every `maxRetries`. -/
theorem terminal_status_single_attempt (n : Nat) (b : ℚ) (s : Nat)
    (transport : Nat → HttpOutcome) (h0 : transport 0 = .httpStatus s)
    (h400 : 400 ≤ s) (h429 : s ≠ 429) (h5xx : ¬ (500 ≤ s ∧ s < 600)) :
    runRequest transport (n : Int) b = ⟨1, [], .raised (.httpStatus s)⟩ := by
  apply runRequest_firstTerminal transport n b s h0
  simp only [retriableStatus, Bool.or_eq_false_iff, beq_eq_false_iff_ne,
    Bool.and_eq_false_iff, decide_eq_false_iff_not]
  exact ⟨h429, by omega⟩

/-- Witness for C3: status 401 on the first attempt with `maxRetries = 5`
gives one attempt, no sleep, immediate propagation. -/
theorem terminal_status_single_attempt_witness :
    runRequest (fun _ => HttpOutcome.httpStatus 401) ((5 : Nat) : Int) 2
      = ⟨1, [], .raised (.httpStatus 401)⟩ :=
  terminal_status_single_attempt 5 2 401 (fun _ => HttpOutcome.httpStatus 401) rfl
    (by decide) (by decide) (by decide)

/-- C9: the settings do not constrain `max_retries` to be non-negative
(construction succeeds for `max_retries < 0`); with a negative
`max_retries` the retry loop body never runs, `_request` returns `None`
with zero HTTP attempts, and `chat_completion` with the unwrap flag unset
returns that `None` instead of an envelope or an error. -/
theorem negative_max_retries_none (m : Int) (hm : m < 0) (b : ℚ)
    (transport : Nat → HttpOutcome) (q mdl key base : String) (temp t bf : ℚ)
    (hkey : key ≠ "") :
    runRequest transport m b = ⟨0, [], .noneReturn⟩ ∧
    (chat_completion (initialOpenAIState m b) q mdl temp false transport).attempts = 0 ∧
    (chat_completion (initialOpenAIState m b) q mdl temp false transport).outcome
      = .envelope none ∧
    mkOpenAISettings key "" base t m bf = .ok ⟨key, base, t, m, bf⟩ := by
  refine ⟨runRequest_negRetries transport m hm b, ?_, ?_, ?_⟩
  · show (runRequest transport m b).attempts = 0
    rw [runRequest_negRetries transport m hm b]
  · show chatOutcomeOf (runRequest transport m b).result false = .envelope none
    rw [runRequest_negRetries transport m hm b]
    rfl
  · simp [mkOpenAISettings, validate_api_key, hkey]

/-- Witness for C9 at `max_retries = -1`. -/
theorem negative_max_retries_none_witness :
    runRequest (fun _ => HttpOutcome.network) (-1) 1 = ⟨0, [], .noneReturn⟩ ∧
    (chat_completion (initialOpenAIState (-1) 1) "q" "m" 1 false
        (fun _ => HttpOutcome.network)).attempts = 0 ∧
    (chat_completion (initialOpenAIState (-1) 1) "q" "m" 1 false
        (fun _ => HttpOutcome.network)).outcome = .envelope none ∧
    mkOpenAISettings "k" "" "u" 120 (-1) 2 = .ok ⟨"k", "u", 120, -1, 2⟩ :=
  negative_max_retries_none (-1) (by decide) 1 (fun _ => HttpOutcome.network)
    "q" "m" "k" "u" 1 120 2 (by decide)

/-- The state after `OpenAIClient.chat_completion` always carries the
appended user turn, whether or not the request succeeded (and even on a
closed client). -/
theorem chat_completion_state (st : ClientState) (q mdl : String) (temp : ℚ)
    (flag : Bool) (transport : Nat → HttpOutcome) :
    (chat_completion st q mdl temp flag transport).state
      = { st with messages := st.messages ++ [⟨"user", q⟩] } :=
  rfl

/-- The payload sent by `OpenAIClient.chat_completion` carries the full
updated history. -/
theorem chat_completion_payload (st : ClientState) (q mdl : String) (temp : ℚ)
    (flag : Bool) (transport : Nat → HttpOutcome) :
    (chat_completion st q mdl temp flag transport).payload
      = ⟨mdl, st.messages ++ [⟨"user", q⟩], temp⟩ :=
  rfl

/-- Same as `chat_completion_state`, for the Perplexity client. -/
theorem perplexity_chat_completion_state (st : ClientState) (q mdl : String)
    (transport : Nat → HttpOutcome) :
    (perplexity_chat_completion st q mdl transport).state
      = { st with messages := st.messages ++ [⟨"user", q⟩] } :=
  rfl

/-- Same as `chat_completion_payload`, for the Perplexity client. -/
theorem perplexity_chat_completion_payload (st : ClientState) (q mdl : String)
    (transport : Nat → HttpOutcome) :
    (perplexity_chat_completion st q mdl transport).payload
      = ⟨mdl, st.messages ++ [⟨"user", q⟩]⟩ :=
  rfl

/-- Same as `chat_completion_state`, for the Anthropic client. -/
theorem anthropic_chat_completion_state (st : AnthropicState) (q mdl : String)
    (mt : Option Int) (tmp : Option ℚ) (ss : Option (List String))
    (transport : Nat → HttpOutcome) :
    (anthropic_chat_completion st q mdl mt tmp ss transport).state
      = { st with messages := st.messages ++ [⟨"user", q⟩] } :=
  rfl

/-- The payload sent by `AnthropicClient.chat_completion`: system prompt in
the top-level `system` field, history plus the new user turn in
`messages`. -/
theorem anthropic_chat_completion_payload (st : AnthropicState) (q mdl : String)
    (mt : Option Int) (tmp : Option ℚ) (ss : Option (List String))
    (transport : Nat → HttpOutcome) :
    (anthropic_chat_completion st q mdl mt tmp ss transport).payload
      = ⟨mdl, st.system_prompt, st.messages ++ [⟨"user", q⟩], mt, tmp, ss⟩ :=
  rfl

/-- C4: with `return_only_answer=True` and a successful response whose
body is `{"choices":[{"message":{"content":"hi"}}]}`, the OpenAI-style
`chat_completion` returns exactly the string `"hi"`; with a successful
response whose body lacks the `choices[0].message.content` path, it raises
the structured unwrap failure (the spec's `ResponseShapeError`, Python's
subscript `KeyError`) after exactly one attempt — the unwrap failure is
never retried. -/
theorem unwrap_answer_behavior (n : Nat) (b temp : ℚ) (q mdl : String) (body : Json) :
    (chat_completion (initialOpenAIState (n : Int) b) q mdl temp true
        (fun _ => HttpOutcome.success hiBody)).outcome = .answer (.str "hi") ∧
    (unwrapAnswer body = none →
      (chat_completion (initialOpenAIState (n : Int) b) q mdl temp true
          (fun _ => HttpOutcome.success body)).outcome = .shapeError ∧
      (chat_completion (initialOpenAIState (n : Int) b) q mdl temp true
          (fun _ => HttpOutcome.success body)).attempts = 1) := by
  refine ⟨?_, fun hnone => ⟨?_, ?_⟩⟩
  · show chatOutcomeOf
      (runRequest (fun _ => HttpOutcome.success hiBody) (n : Int) b).result true
        = .answer (.str "hi")
    rw [runRequest_firstSuccess _ n b hiBody rfl]
    rfl
  · show chatOutcomeOf
      (runRequest (fun _ => HttpOutcome.success body) (n : Int) b).result true
        = .shapeError
    rw [runRequest_firstSuccess _ n b body rfl]
    simp [chatOutcomeOf, hnone]
  · show (runRequest (fun _ => HttpOutcome.success body) (n : Int) b).attempts = 1
    rw [runRequest_firstSuccess _ n b body rfl]

/-- Witness for C4: the body `{}` lacks the `choices` path and yields the
unwrap failure after one successful attempt. -/
theorem unwrap_answer_behavior_witness :
    unwrapAnswer (Json.obj []) = none ∧
    (chat_completion (initialOpenAIState ((0 : Nat) : Int) 1) "q" "m" 1 true
        (fun _ => HttpOutcome.success (Json.obj []))).outcome = .shapeError ∧
    (chat_completion (initialOpenAIState ((0 : Nat) : Int) 1) "q" "m" 1 true
        (fun _ => HttpOutcome.success (Json.obj []))).attempts = 1 :=
  ⟨rfl, ((unwrap_answer_behavior 0 1 1 "q" "m" (Json.obj [])).2 rfl).1,
   ((unwrap_answer_behavior 0 1 1 "q" "m" (Json.obj [])).2 rfl).2⟩

/-- `_request` on a closed client: the transport is never consulted (zero
attempts, no sleeps); when `max_retries ≥ 0` the first loop iteration's
request call raises the closed-client `RuntimeError`, and when
`max_retries < 0` the loop body never runs, so nothing raises and the
function returns `None`. -/
theorem runRequestOn_closed (transport : Nat → HttpOutcome) (m : Int) (b : ℚ) :
    runRequestOn true transport m b
      = if 0 ≤ m then ⟨0, [], .closedRaise⟩ else ⟨0, [], .noneReturn⟩ := by
  rcases le_or_lt 0 m with hm | hm
  · rw [if_pos hm]
    unfold runRequestOn
    rw [show (m + 1).toNat = m.toNat + 1 by omega]
    rfl
  · rw [if_neg (by omega)]
    unfold runRequestOn
    rw [show (m + 1).toNat = 0 by omega]
    rfl

/-- Counterexample to C5 as stated: a client constructed with
`max_retries = -1` (accepted by the settings, see C9) and then closed does
NOT raise the closed-client error from `chat_completion` — the retry loop
never reaches the request call, so nothing raises and the call returns
`None`, exactly as on an open client. -/
theorem closed_client_negative_retries_cex :
    (chat_completion (close (initialOpenAIState (-1) 1)).1 "q" "m" 1 false
        (fun _ => HttpOutcome.network)).outcome = .envelope none ∧
    ¬ ((chat_completion (close (initialOpenAIState (-1) 1)).1 "q" "m" 1 false
        (fun _ => HttpOutcome.network)).outcome = .closedError) := by
  constructor
  · rfl
  · intro h
    rw [show (chat_completion (close (initialOpenAIState (-1) 1)).1 "q" "m" 1 false
        (fun _ => HttpOutcome.network)).outcome = ChatOutcome.envelope none from rfl]
      at h
    exact ChatOutcome.noConfusion h

/-- C5 (amended): `close()` never raises, also when called twice (httpx's
`aclose` is idempotent); any `chat_completion` or `embeddings` call on a
closed client performs zero transport attempts — no network I/O — and
raises the closed-client error whenever `max_retries ≥ 0` (the only case
in which the request loop body runs at all); with `max_retries < 0` the
call instead returns `None` (unwrap flag unset), exactly as on an open
client, because the loop never reaches the request call. Same for the
Anthropic client. -/
theorem close_fail_fast_nonneg_retries (st : ClientState) (ast : AnthropicState)
    (q mdl inp emdl : String) (temp : ℚ) (flag eflag : Bool)
    (transport : Nat → HttpOutcome) :
    (close st).2 = false ∧
    (close (close st).1).2 = false ∧
    (chat_completion (close st).1 q mdl temp flag transport).attempts = 0 ∧
    (0 ≤ st.maxRetries →
      (chat_completion (close st).1 q mdl temp flag transport).outcome
        = .closedError) ∧
    (embeddings (close st).1 inp emdl eflag transport).attempts = 0 ∧
    (0 ≤ st.maxRetries →
      (embeddings (close st).1 inp emdl eflag transport).outcome = .closedError) ∧
    (st.maxRetries < 0 →
      (chat_completion (close st).1 q mdl temp false transport).outcome
        = .envelope none) ∧
    (anthropicClose ast).2 = false ∧
    (anthropicClose (anthropicClose ast).1).2 = false ∧
    (anthropic_chat_completion (anthropicClose ast).1 q mdl none none none
        transport).attempts = 0 ∧
    (0 ≤ ast.maxRetries →
      (anthropic_chat_completion (anthropicClose ast).1 q mdl none none none
        transport).outcome = .closedError) := by
  refine ⟨rfl, rfl, ?_, ?_, ?_, ?_, ?_, rfl, rfl, ?_, ?_⟩
  · show (runRequestOn true transport st.maxRetries st.backoff).attempts = 0
    rw [runRequestOn_closed]
    split <;> rfl
  · intro hm
    show chatOutcomeOf (runRequestOn true transport st.maxRetries st.backoff).result
        flag = .closedError
    rw [runRequestOn_closed, if_pos hm]
    rfl
  · show (runRequestOn true transport st.maxRetries st.backoff).attempts = 0
    rw [runRequestOn_closed]
    split <;> rfl
  · intro hm
    show embOutcomeOf (runRequestOn true transport st.maxRetries st.backoff).result
        eflag = .closedError
    rw [runRequestOn_closed, if_pos hm]
    rfl
  · intro hm
    show chatOutcomeOf (runRequestOn true transport st.maxRetries st.backoff).result
        false = .envelope none
    rw [runRequestOn_closed, if_neg (by omega)]
    rfl
  · show (runRequestOn true transport ast.maxRetries ast.backoff).attempts = 0
    rw [runRequestOn_closed]
    split <;> rfl
  · intro hm
    show chatOutcomeOf (runRequestOn true transport ast.maxRetries ast.backoff).result
        false = .closedError
    rw [runRequestOn_closed, if_pos hm]
    rfl

/-- Witness for the amended C5 at `max_retries = 5` (closed-client error,
zero attempts) and at `max_retries = -1` (`None` passthrough, zero
attempts). -/
theorem close_fail_fast_nonneg_retries_witness :
    (chat_completion (close (initialOpenAIState 5 2)).1 "q" "m" 1 false
        (fun _ => HttpOutcome.network)).outcome = .closedError ∧
    (chat_completion (close (initialOpenAIState 5 2)).1 "q" "m" 1 false
        (fun _ => HttpOutcome.network)).attempts = 0 ∧
    (anthropic_chat_completion (anthropicClose (anthropicInit "" 5 2)).1 "q" "m"
        none none none (fun _ => HttpOutcome.network)).outcome = .closedError ∧
    (chat_completion (close (initialOpenAIState (-1) 2)).1 "q" "m" 1 false
        (fun _ => HttpOutcome.network)).outcome = .envelope none := by
  have h1 := close_fail_fast_nonneg_retries (initialOpenAIState 5 2)
    (anthropicInit "" 5 2) "q" "m" "i" "em" 1 false false
    (fun _ => HttpOutcome.network)
  have h2 := close_fail_fast_nonneg_retries (initialOpenAIState (-1) 2)
    (anthropicInit "" 5 2) "q" "m" "i" "em" 1 false false
    (fun _ => HttpOutcome.network)
  exact ⟨h1.2.2.2.1 (by decide), h1.2.2.1,
    h1.2.2.2.2.2.2.2.2.2.2 (by decide), h2.2.2.2.2.2.2.1 (by decide)⟩

/-- C6: two `chat_completion` calls on the same instance send, on the
second call, a payload whose message list contains the user turn for the
first query followed by the user turn for the second; the only entries
ever added to the history are these user turns (assistant replies are
never appended). Holds for the OpenAI-style and Perplexity-style clients. -/
theorem conversation_accumulation (st pst : ClientState) (q1 q2 mdl : String)
    (temp : ℚ) (flag1 flag2 : Bool) (t1 t2 : Nat → HttpOutcome) :
    (chat_completion (chat_completion st q1 mdl temp flag1 t1).state q2 mdl temp
        flag2 t2).payload.messages
      = st.messages ++ [⟨"user", q1⟩, ⟨"user", q2⟩] ∧
    (chat_completion (chat_completion st q1 mdl temp flag1 t1).state q2 mdl temp
        flag2 t2).state.messages
      = st.messages ++ [⟨"user", q1⟩, ⟨"user", q2⟩] ∧
    (perplexity_chat_completion (perplexity_chat_completion pst q1 mdl t1).state
        q2 mdl t2).payload.messages
      = pst.messages ++ [⟨"user", q1⟩, ⟨"user", q2⟩] := by
  refine ⟨?_, ?_, ?_⟩ <;>
    simp [chat_completion_payload, chat_completion_state,
      perplexity_chat_completion_payload, perplexity_chat_completion_state]

/-- C10: `chat_completion` appends the user turn before issuing the
request and never removes it: the post-call history is the old history
plus the user turn unconditionally — in particular when the request fails
with a re-raised transport error — and a subsequent call re-sends the
failed turn in its payload. Holds for the OpenAI-style client and the
Anthropic client. -/
theorem history_append_on_failure (st : ClientState) (ast : AnthropicState)
    (q q2 mdl : String) (temp : ℚ) (flag : Bool) (t t2 : Nat → HttpOutcome) :
    (chat_completion st q mdl temp flag t).state.messages
        = st.messages ++ [⟨"user", q⟩] ∧
    (∀ f, (chat_completion st q mdl temp flag t).outcome = .transportRaise f →
      (chat_completion st q mdl temp flag t).state.messages
        = st.messages ++ [⟨"user", q⟩]) ∧
    (chat_completion (chat_completion st q mdl temp flag t).state q2 mdl temp flag
        t2).payload.messages
        = st.messages ++ [⟨"user", q⟩, ⟨"user", q2⟩] ∧
    (anthropic_chat_completion ast q mdl none none none t).state.messages
        = ast.messages ++ [⟨"user", q⟩] := by
  refine ⟨?_, fun _ _ => ?_, ?_, ?_⟩ <;>
    simp [chat_completion_state, chat_completion_payload,
      anthropic_chat_completion_state]

/-- Witness for C10: with `maxRetries = 0` and a failing network
transport, the failed call's user turn is retained in the history. -/
theorem history_append_on_failure_witness :
    (chat_completion (initialOpenAIState 0 1) "a" "m" 1 false
        (fun _ => HttpOutcome.network)).outcome
      = .transportRaise .network ∧
    (chat_completion (initialOpenAIState 0 1) "a" "m" 1 false
        (fun _ => HttpOutcome.network)).state.messages
      = (initialOpenAIState 0 1).messages ++ [⟨"user", "a"⟩] :=
  ⟨rfl,
   (history_append_on_failure (initialOpenAIState 0 1) (anthropicInit "" 0 1)
      "a" "b" "m" 1 false (fun _ => HttpOutcome.network)
      (fun _ => HttpOutcome.network)).2.1 .network rfl⟩

/-- Along any sequence of `AnthropicClient.chat_completion` calls, the
history accumulates exactly the user turns for the queries, in order, and
the system prompt field is untouched. -/
theorem anthropicRun_state (mdl : String) (mt : Option Int) (tmp : Option ℚ)
    (ss : Option (List String)) (transport : Nat → HttpOutcome) :
    ∀ (queries : List String) (st : AnthropicState),
      (anthropicRun st queries mdl mt tmp ss transport).messages
        = st.messages ++ queries.map (fun q => ⟨"user", q⟩) ∧
      (anthropicRun st queries mdl mt tmp ss transport).system_prompt
        = st.system_prompt := by
  intro queries
  induction queries with
  | nil =>
    intro st
    simp [anthropicRun]
  | cons q qs ih =>
    intro st
    have hstep : anthropicRun st (q :: qs) mdl mt tmp ss transport
        = anthropicRun { st with messages := st.messages ++ [⟨"user", q⟩] } qs
            mdl mt tmp ss transport := by
      unfold anthropicRun
      rw [List.foldl_cons, anthropic_chat_completion_state]
    rw [hstep]
    obtain ⟨h1, h2⟩ := ih { st with messages := st.messages ++ [⟨"user", q⟩] }
    exact ⟨by rw [h1]; simp, h2⟩

/-- Counterexample to C7 as stated: if the caller passes the system prompt
itself as the query, the payload's `messages` array does contain an entry
whose content equals the system prompt (as a user turn) — so "no entry has
role system or content equal to the system prompt" fails on this input. -/
theorem anthropic_system_in_messages_cex :
    ¬ (∀ m, m ∈ (anthropic_chat_completion (anthropicInit "" 5 2)
          mentorPromptText "claude-sonnet-4-5-20250929" (some 4096) none none
          (fun _ => HttpOutcome.network)).payload.messages →
        m.role ≠ "system" ∧ m.content ≠ (anthropicInit "" 5 2).system_prompt) := by
  intro h
  have hmem : (⟨"user", mentorPromptText⟩ : Message)
      ∈ (anthropic_chat_completion (anthropicInit "" 5 2) mentorPromptText
          "claude-sonnet-4-5-20250929" (some 4096) none none
          (fun _ => HttpOutcome.network)).payload.messages := by
    rw [anthropic_chat_completion_payload]
    simp [anthropicInit]
  exact (h _ hmem).2 (by simp [anthropicInit])

/-- C7 (amended): over any sequence of `chat_completion` calls on one
Anthropic client, every payload entry of `messages` has role `"user"` —
never `"system"` — and the system prompt travels in the payload's
top-level `system` field; an entry's content can equal the system prompt
only when one of the caller-supplied queries is the prompt itself. -/
theorem anthropic_system_placement (prompt : String) (n : Int) (b : ℚ)
    (queries : List String) (q mdl : String) (mt : Option Int) (tmp : Option ℚ)
    (ss : Option (List String)) (t1 t2 : Nat → HttpOutcome) :
    (anthropic_chat_completion
        (anthropicRun (anthropicInit prompt n b) queries mdl mt tmp ss t1)
        q mdl mt tmp ss t2).payload.system
      = (anthropicInit prompt n b).system_prompt ∧
    (∀ m, m ∈ (anthropic_chat_completion
        (anthropicRun (anthropicInit prompt n b) queries mdl mt tmp ss t1)
        q mdl mt tmp ss t2).payload.messages → m.role = "user") ∧
    (∀ m, m ∈ (anthropic_chat_completion
        (anthropicRun (anthropicInit prompt n b) queries mdl mt tmp ss t1)
        q mdl mt tmp ss t2).payload.messages →
      m.content = (anthropicInit prompt n b).system_prompt →
      (anthropicInit prompt n b).system_prompt ∈ queries ++ [q]) := by
  have hrun := anthropicRun_state mdl mt tmp ss t1 queries (anthropicInit prompt n b)
  have hmsgs : (anthropic_chat_completion
      (anthropicRun (anthropicInit prompt n b) queries mdl mt tmp ss t1)
      q mdl mt tmp ss t2).payload.messages
      = (queries ++ [q]).map (fun s => (⟨"user", s⟩ : Message)) := by
    rw [anthropic_chat_completion_payload]
    show (anthropicRun (anthropicInit prompt n b) queries mdl mt tmp ss
        t1).messages ++ [⟨"user", q⟩] = _
    rw [hrun.1]
    simp [anthropicInit]
  refine ⟨?_, ?_, ?_⟩
  · rw [anthropic_chat_completion_payload]
    exact hrun.2
  · intro m hm
    rw [hmsgs] at hm
    obtain ⟨x, _, rfl⟩ := List.mem_map.1 hm
    rfl
  · intro m hm hc
    rw [hmsgs] at hm
    obtain ⟨x, hx, rfl⟩ := List.mem_map.1 hm
    rw [show (⟨"user", x⟩ : Message).content = x from rfl] at hc
    rw [← hc]
    exact hx

/-- Witness for the amended C7, on the call sequence `["hello"]` followed
by `"hi"`: the payload's `system` field carries the default prompt, and
the history entry for `"hello"` has role `"user"`. -/
theorem anthropic_system_placement_witness :
    (anthropic_chat_completion
        (anthropicRun (anthropicInit "" 5 2) ["hello"] "m" none none none
          (fun _ => HttpOutcome.network))
        "hi" "m" none none none (fun _ => HttpOutcome.network)).payload.system
      = (anthropicInit "" 5 2).system_prompt ∧
    (⟨"user", "hello"⟩ : Message).role = "user" :=
  ⟨(anthropic_system_placement "" 5 2 ["hello"] "hi" "m" none none none
      (fun _ => HttpOutcome.network) (fun _ => HttpOutcome.network)).1,
   (anthropic_system_placement "" 5 2 ["hello"] "hi" "m" none none none
      (fun _ => HttpOutcome.network) (fun _ => HttpOutcome.network)).2.1
     ⟨"user", "hello"⟩
     (by rw [anthropic_chat_completion_payload]
         simp [anthropicRun, anthropic_chat_completion_state, anthropicInit])⟩

/-- C8: credential resolution at settings construction, identical for the
OpenAI and Anthropic settings: with neither an explicit `api_key` nor the
environment variable set, construction fails with the missing-credential
error before any network call (construction is pure); an explicit value
wins over the environment; the environment value is used only when the
explicit value is absent. -/
theorem settings_credential_resolution (ek env base ver : String) (t : ℚ)
    (mr : Int) (bf : ℚ) :
    (ek = "" → env = "" →
      mkOpenAISettings ek env base t mr bf = .error .missingCredential ∧
      mkAnthropicSettings ek env base ver t mr bf = .error .missingCredential) ∧
    (ek ≠ "" →
      mkOpenAISettings ek env base t mr bf = .ok ⟨ek, base, t, mr, bf⟩ ∧
      mkAnthropicSettings ek env base ver t mr bf = .ok ⟨ek, base, ver, t, mr, bf⟩) ∧
    (ek = "" → env ≠ "" →
      mkOpenAISettings ek env base t mr bf = .ok ⟨env, base, t, mr, bf⟩ ∧
      mkAnthropicSettings ek env base ver t mr bf = .ok ⟨env, base, ver, t, mr, bf⟩) := by
  refine ⟨?_, ?_, ?_⟩
  · intro h1 h2
    subst h1
    subst h2
    exact ⟨rfl, rfl⟩
  · intro h1
    constructor <;>
      simp [mkOpenAISettings, mkAnthropicSettings, validate_api_key, h1]
  · intro h1 h2
    subst h1
    constructor <;>
      simp [mkOpenAISettings, mkAnthropicSettings, validate_api_key, h2]

/-- Witness for C8 on concrete credentials: missing both fails; explicit
`"sk"` wins over environment `"e"`; environment `"e"` used when the
explicit value is empty. -/
theorem settings_credential_resolution_witness :
    (mkOpenAISettings "" "" "u" 120 5 2 = .error .missingCredential ∧
     mkAnthropicSettings "" "" "u" "v" 120 5 2 = .error .missingCredential) ∧
    (mkOpenAISettings "sk" "e" "u" 120 5 2 = .ok ⟨"sk", "u", 120, 5, 2⟩ ∧
     mkAnthropicSettings "sk" "e" "u" "v" 120 5 2 = .ok ⟨"sk", "u", "v", 120, 5, 2⟩) ∧
    (mkOpenAISettings "" "e" "u" 120 5 2 = .ok ⟨"e", "u", 120, 5, 2⟩ ∧
     mkAnthropicSettings "" "e" "u" "v" 120 5 2 = .ok ⟨"e", "u", "v", 120, 5, 2⟩) :=
  ⟨(settings_credential_resolution "" "" "u" "v" 120 5 2).1 rfl rfl,
   (settings_credential_resolution "sk" "e" "u" "v" 120 5 2).2.1 (by decide),
   (settings_credential_resolution "" "e" "u" "v" 120 5 2).2.2 rfl (by decide)⟩
